import Mathlib

/-!
Shallow embedding of `src/myauth/myauth.py` (a JupyterHub auto-login
authenticator plugin), together with theorems settling the specification
claims about it.

External collaborators (the host framework, the OS user/group databases,
and the child-process runner) are passed in as explicit function
parameters; the plugin's own code is translated definition by definition.
-/

/-- Observable outcome of `MyLoginHandler.get`: the username passed to
`user_from_username`, the user the login cookie is set for, and the
redirect target. -/
structure LoginResponse where
  username : String
  cookieUser : String
  redirect : String
  deriving DecidableEq, Repr

/-- Modelled from the spec: the host framework's `url_path_join`, which
joins the hub base URL with a path segment using a single slash (the
function itself lives in `jupyterhub.utils`, outside this repository). -/
def url_path_join (a b : String) : String :=
  (if a.data.getLast? = some '/' then String.mk a.data.dropLast else a) ++ "/" ++ b

/-- `MyLoginHandler.get`: reads the auto-login file content, computes the
username as `file.read().replace('\n', '')` — i.e. the content with every
newline character removed — authenticates that user, sets the login cookie
for it, and redirects to `url_path_join(base_url, 'home')`.
The file content and the hub base URL are parameters. -/
def MyLoginHandler_get (fileContent baseUrl : String) : LoginResponse :=
  let username := String.mk (fileContent.data.filter (fun c => c ≠ '\n'))
  { username := username
    cookieUser := username
    redirect := url_path_join baseUrl "home" }

/-- Modelled from the spec: "Strip the trailing newline" — removes one
trailing newline character if present and changes nothing else.  Used only
to compare the spec's wording against the code's behaviour. -/
def stripTrailingNewline (s : String) : String :=
  if s.data.getLast? = some '\n' then String.mk s.data.dropLast else s

/-- `_add_user_cmd_default`: platform-dependent default for `add_user_cmd`.
`platform` stands for `sys.platform`; `hasPw` for the truthiness of
`shutil.which('pw')`.  Raising `ValueError` is modelled as `Except.error`. -/
def add_user_cmd_default (platform : String) (hasPw : Bool) :
    Except String (List String) :=
  if platform = "darwin" then
    Except.error "I don\x27t know how to create users on OS X"
  else if hasPw then
    Except.ok ["pw", "useradd", "-m"]
  else
    Except.ok ["adduser", "-q", "--gecos", "\"\"", "--disabled-password"]

/-- Python's `arg.replace('USERNAME', name)` at the character level:
replaces every (left-to-right, non-overlapping) occurrence of the literal
`USERNAME` with `name`, without rescanning the replacement. -/
def replaceUSERNAME (name : String) : List Char → List Char
  | 'U' :: 'S' :: 'E' :: 'R' :: 'N' :: 'A' :: 'M' :: 'E' :: rest =>
      name.data ++ replaceUSERNAME name rest
  | c :: rest => c :: replaceUSERNAME name rest
  | [] => []

/-- One token of `add_user_cmd` with `USERNAME` substituted. -/
def substituteToken (name arg : String) : String :=
  String.mk (replaceUSERNAME name arg.data)

/-- The argument list built by `add_system_user`:
`[arg.replace('USERNAME', name) for arg in self.add_user_cmd] + [name]`. -/
def buildCmd (add_user_cmd : List String) (name : String) : List String :=
  add_user_cmd.map (substituteToken name) ++ [name]

/-- Side effects the `add_user` hook can perform: invoking the creation
command as a child process, and delegating to the base framework's
`add_user` bookkeeping. -/
inductive Effect where
  | ranCmd (cmd : List String)
  | superAddUser (name : String)
  deriving DecidableEq, Repr

/-- `add_system_user`: builds the command, runs it (`run` returns the exit
code and the combined stdout/stderr), and fails with a `RuntimeError`
message when the exit code is nonzero.  Returns the effects performed
together with the outcome. -/
def add_system_user (run : List String → Int × String)
    (add_user_cmd : List String) (name : String) :
    List Effect × Except String Unit :=
  let cmd := buildCmd add_user_cmd name
  let r := run cmd
  if r.1 ≠ 0 then
    ([Effect.ranCmd cmd],
     Except.error ("Failed to create system user " ++ name ++ ": " ++ r.2))
  else
    ([Effect.ranCmd cmd], Except.ok ())

/-- `system_user_exists`: `pwd.getpwnam(user.name)` with `KeyError`
(modelled as `none`) meaning the account does not exist. -/
def system_user_exists (getpwnam : String → Option Unit) (name : String) :
    Bool :=
  match getpwnam name with
  | none => false
  | some _ => true

/-- The `add_user` hook: checks whether the OS account exists; if not,
either creates it (when `create_system_users`) or raises
`KeyError("User %s does not exist.")`; on every non-error path it finally
delegates to the base class's `add_user`.  Returns the effects performed
together with the outcome. -/
def add_user (getpwnam : String → Option Unit)
    (run : List String → Int × String) (create_system_users : Bool)
    (add_user_cmd : List String) (name : String) :
    List Effect × Except String Unit :=
  if system_user_exists getpwnam name then
    ([Effect.superAddUser name], Except.ok ())
  else if create_system_users then
    match add_system_user run add_user_cmd name with
    | (effs, Except.ok _) =>
        (effs ++ [Effect.superAddUser name], Except.ok ())
    | (effs, Except.error e) => (effs, Except.error e)
  else
    ([], Except.error ("User " ++ name ++ " does not exist."))

/-- The loop body of `check_group_whitelist`: for each configured group
name, resolve it via `getgrnam` (the OS group database, group name to
member list, `none` for `KeyError`); on failure log and continue; on a
member match return `True`; otherwise fall through to `False`. -/
def checkGroups (getgrnam : String → Option (List String)) (username : String) :
    List String → Bool
  | [] => false
  | g :: gs =>
    match getgrnam g with
    | none => checkGroups getgrnam username gs
    | some mem =>
        if username ∈ mem then true else checkGroups getgrnam username gs

/-- `check_group_whitelist`: `False` when `group_whitelist` is empty,
otherwise the loop above over the configured group names (the Python set
is modelled as a list in its iteration order). -/
def check_group_whitelist (getgrnam : String → Option (List String))
    (group_whitelist : List String) (username : String) : Bool :=
  if group_whitelist.isEmpty then false
  else checkGroups getgrnam username group_whitelist

/-- `check_whitelist`: when `group_whitelist` is truthy (non-empty),
delegate to `check_group_whitelist`; otherwise to the base framework's
check (`superCheck`, which encapsulates the username whitelist). -/
def check_whitelist (getgrnam : String → Option (List String))
    (group_whitelist : List String) (superCheck : String → Bool)
    (username : String) : Bool :=
  if ¬ group_whitelist.isEmpty then
    check_group_whitelist getgrnam group_whitelist username
  else
    superCheck username

-- Concrete fixtures used by witnesses.

/-- A group database with one group `staff` whose members are `alice` and
`bob`. -/
def gdbTest : String → Option (List String) := fun g =>
  if g = "staff" then some ["alice", "bob"] else none

/-- A password database in which no account exists. -/
def pwdbEmpty : String → Option Unit := fun _ => none

/-- A password database in which exactly the account `river` exists. -/
def pwdbRiver : String → Option Unit := fun n =>
  if n = "river" then some () else none

/-- A process runner that always fails with exit code 1 and output
`useradd: user exists`. -/
def runFail : List String → Int × String := fun _ => (1, "useradd: user exists")

/-- A process runner that always succeeds with exit code 0 and no output. -/
def runOk : List String → Int × String := fun _ => (0, "")

/-- A command template exercising `USERNAME` substitution inside a token. -/
def cmdTest : List String :=
  ["adduser", "-q", "--gecos", "\"\"", "--home", "/customhome/USERNAME",
   "--disabled-password"]

example : MyLoginHandler_get "river\n" "/hub/" =
    { username := "river", cookieUser := "river", redirect := "/hub/home" } := by
  decide

example : buildCmd cmdTest "river" =
    ["adduser", "-q", "--gecos", "\"\"", "--home", "/customhome/river",
     "--disabled-password", "river"] := by decide

example : check_group_whitelist gdbTest ["staff"] "alice" = true := by decide

example : check_group_whitelist gdbTest ["nosuch", "staff"] "bob" = true := by
  decide

-- Helper lemmas shared by several claims.

/-- The loop of `check_group_whitelist` as a single `List.any`. -/
theorem checkGroups_eq_any (getgrnam : String → Option (List String))
    (u : String) (l : List String) :
    checkGroups getgrnam u l =
      l.any (fun g => ((getgrnam g).map (fun mem => decide (u ∈ mem))).getD false) := by
  induction l with
  | nil => rfl
  | cons g gs ih =>
    simp only [checkGroups, List.any_cons, ← ih]
    cases getgrnam g with
    | none => simp
    | some mem => by_cases hu : u ∈ mem <;> simp [hu]

/-- The loop of `check_group_whitelist` is an existential over resolvable
groups containing the username. -/
theorem checkGroups_eq_true_iff (getgrnam : String → Option (List String))
    (u : String) (l : List String) :
    checkGroups getgrnam u l = true ↔
      ∃ g ∈ l, ∃ mem, getgrnam g = some mem ∧ u ∈ mem := by
  rw [checkGroups_eq_any, List.any_eq_true]
  constructor
  · rintro ⟨g, hgl, hg⟩
    cases hmem : getgrnam g with
    | none => rw [hmem] at hg; simp at hg
    | some mem =>
      rw [hmem] at hg
      simp at hg
      exact ⟨g, hgl, mem, hmem, hg⟩
  · rintro ⟨g, hgl, mem, hmem, hu⟩
    exact ⟨g, hgl, by simp [hmem, hu]⟩

/-- `check_group_whitelist` is an existential over resolvable groups
containing the username (the empty-list guard changes nothing). -/
theorem check_group_whitelist_eq_true_iff
    (getgrnam : String → Option (List String)) (gwl : List String)
    (u : String) :
    check_group_whitelist getgrnam gwl u = true ↔
      ∃ g ∈ gwl, ∃ mem, getgrnam g = some mem ∧ u ∈ mem := by
  unfold check_group_whitelist
  by_cases h : gwl.isEmpty
  · rw [List.isEmpty_iff] at h
    subst h
    simp
  · simp [h, checkGroups_eq_true_iff]

/-- Claim C1 fails as stated: the handler computes the username with
`replace` over every newline character, so a file content with an interior
newline does not authenticate the content minus a trailing newline.
Concretely, content `a\nb` authenticates `ab`, not `a\nb`. -/
theorem c1_counterexample :
    (MyLoginHandler_get "a\nb" "/hub/").username ≠ stripTrailingNewline "a\nb" := by
  decide

/-- Claim C1 (amended): the login handler authenticates the file content
with every newline character removed; in particular, for every username U
containing no newline, written with or without a trailing newline, the
authenticated username is exactly U, the login cookie is set for that same
user, and the redirect goes to the hub base URL joined with `home`. -/
theorem c1_autologin_authenticates_username (U baseUrl : String)
    (h : '\n' ∉ U.data) :
    (MyLoginHandler_get U baseUrl).username = U ∧
    (MyLoginHandler_get (U ++ "\n") baseUrl).username = U ∧
    (MyLoginHandler_get U baseUrl).cookieUser = U ∧
    (MyLoginHandler_get (U ++ "\n") baseUrl).cookieUser = U ∧
    (MyLoginHandler_get U baseUrl).redirect = url_path_join baseUrl "home" := by
  have hfilter : U.data.filter (fun c => !decide (c = '\n')) = U.data := by
    apply List.filter_eq_self.mpr
    intro c hc
    simp only [Bool.not_eq_eq_eq_not, Bool.not_true, decide_eq_false_iff_not]
    intro heq
    exact h (heq ▸ hc)
  have happ : (U ++ "\n").data.filter (fun c => !decide (c = '\n')) = U.data := by
    rw [String.data_append, List.filter_append, hfilter]
    simp
  refine ⟨?_, ?_, ?_, ?_, rfl⟩ <;>
    simp [MyLoginHandler_get, hfilter, happ]

/-- Witness for C1 at the concrete username `river` and base URL `/hub/`. -/
theorem c1_witness :
    (MyLoginHandler_get "river" "/hub/").username = "river" ∧
    (MyLoginHandler_get ("river" ++ "\n") "/hub/").username = "river" ∧
    (MyLoginHandler_get "river" "/hub/").cookieUser = "river" ∧
    (MyLoginHandler_get ("river" ++ "\n") "/hub/").cookieUser = "river" ∧
    (MyLoginHandler_get "river" "/hub/").redirect = url_path_join "/hub/" "home" :=
  c1_autologin_authenticates_username "river" "/hub/" (by decide)

/-- Claim C2: whenever `group_whitelist` is non-empty, `check_whitelist`
returns exactly `check_group_whitelist` and is independent of the base
framework username-whitelist check; when it is empty, it returns the base
check. -/
theorem c2_group_list_dominance (getgrnam : String → Option (List String))
    (gwl : List String) (sc1 sc2 : String → Bool) (u : String) :
    (gwl ≠ [] →
      check_whitelist getgrnam gwl sc1 u = check_group_whitelist getgrnam gwl u ∧
      check_whitelist getgrnam gwl sc1 u = check_whitelist getgrnam gwl sc2 u) ∧
    (gwl = [] → check_whitelist getgrnam gwl sc1 u = sc1 u) := by
  constructor
  · intro h
    have he : gwl.isEmpty = false := by
      simpa [List.isEmpty_iff] using h
    constructor <;> simp [check_whitelist, he]
  · intro h
    subst h
    simp [check_whitelist]

/-- Witness for C2: with group `staff` configured, the username whitelist
check is ignored. -/
theorem c2_witness :
    check_whitelist gdbTest ["staff"] (fun _ => false) "alice" =
      check_group_whitelist gdbTest ["staff"] "alice" :=
  ((c2_group_list_dominance gdbTest ["staff"] (fun _ => false)
      (fun _ => true) "alice").1 (by simp)).1

/-- Claim C3: `check_group_whitelist` returns true iff the username appears
in the member list of at least one configured group that resolves in the OS
group database; and it returns false on an empty `group_whitelist`. -/
theorem c3_group_whitelist_characterisation
    (getgrnam : String → Option (List String)) (gwl : List String)
    (u : String) :
    (check_group_whitelist getgrnam gwl u = true ↔
      ∃ g ∈ gwl, ∃ mem, getgrnam g = some mem ∧ u ∈ mem) ∧
    check_group_whitelist getgrnam [] u = false :=
  ⟨check_group_whitelist_eq_true_iff getgrnam gwl u, rfl⟩

/-- Witness for C3: `alice` is a member of the resolvable group `staff`. -/
theorem c3_witness :
    check_group_whitelist gdbTest ["staff"] "alice" = true :=
  (c3_group_whitelist_characterisation gdbTest ["staff"] "alice").1.mpr
    ⟨"staff", by simp, ["alice", "bob"], rfl, by simp⟩

/-- Claim C4: for a missing OS account with `create_system_users` enabled,
`add_user` invokes exactly the command `buildCmd` (the template with
`USERNAME` substituted in every token plus the username appended); exit
code 0 lets the hook complete with the base-class delegation, and a
nonzero exit code fails with an error containing both the username and the
captured process output. -/
theorem c4_add_user_creation_command (getpwnam : String → Option Unit)
    (run : List String → Int × String) (tmpl : List String) (name : String)
    (hpw : getpwnam name = none) :
    ((run (buildCmd tmpl name)).1 = 0 →
      add_user getpwnam run true tmpl name =
        ([Effect.ranCmd (buildCmd tmpl name), Effect.superAddUser name],
         Except.ok ())) ∧
    ((run (buildCmd tmpl name)).1 ≠ 0 →
      add_user getpwnam run true tmpl name =
        ([Effect.ranCmd (buildCmd tmpl name)],
         Except.error ("Failed to create system user " ++ name ++ ": " ++
           (run (buildCmd tmpl name)).2)) ∧
      (∃ p q, "Failed to create system user " ++ name ++ ": " ++
           (run (buildCmd tmpl name)).2 = p ++ name ++ q) ∧
      (∃ p q, "Failed to create system user " ++ name ++ ": " ++
           (run (buildCmd tmpl name)).2 = p ++ (run (buildCmd tmpl name)).2 ++ q)) ∧
    Effect.ranCmd (buildCmd tmpl name) ∈ (add_user getpwnam run true tmpl name).1 := by
  have hex : system_user_exists getpwnam name = false := by
    simp [system_user_exists, hpw]
  refine ⟨?_, ?_, ?_⟩
  · intro h0
    have hsys : add_system_user run tmpl name =
        ([Effect.ranCmd (buildCmd tmpl name)], Except.ok ()) := by
      simp [add_system_user, h0]
    simp [add_user, hex, hsys]
  · intro hne
    have hsys : add_system_user run tmpl name =
        ([Effect.ranCmd (buildCmd tmpl name)],
         Except.error ("Failed to create system user " ++ name ++ ": " ++
           (run (buildCmd tmpl name)).2)) := by
      simp [add_system_user, hne]
    refine ⟨by simp [add_user, hex, hsys], ?_, ?_⟩
    · exact ⟨"Failed to create system user ", ": " ++ (run (buildCmd tmpl name)).2,
        by rw [String.append_assoc, String.append_assoc]⟩
    · exact ⟨"Failed to create system user " ++ name ++ ": ", "",
        by rw [String.append_empty]⟩
  · by_cases h0 : (run (buildCmd tmpl name)).1 = 0
    · have hsys : add_system_user run tmpl name =
          ([Effect.ranCmd (buildCmd tmpl name)], Except.ok ()) := by
        simp [add_system_user, h0]
      simp [add_user, hex, hsys]
    · have hsys : add_system_user run tmpl name =
          ([Effect.ranCmd (buildCmd tmpl name)],
           Except.error ("Failed to create system user " ++ name ++ ": " ++
             (run (buildCmd tmpl name)).2)) := by
        simp [add_system_user, h0]
      simp [add_user, hex, hsys]

/-- Witness for C4: the template with `USERNAME` inside a token, the user
`river`, and a failing creation command. -/
theorem c4_witness :
    (add_user pwdbEmpty runFail true cmdTest "river").1 =
      [Effect.ranCmd ["adduser", "-q", "--gecos", "\"\"", "--home",
        "/customhome/river", "--disabled-password", "river"]] ∧
    (add_user pwdbEmpty runFail true cmdTest "river").2 =
      Except.error "Failed to create system user river: useradd: user exists" := by
  have h := ((c4_add_user_creation_command pwdbEmpty runFail cmdTest "river"
      rfl).2.1 (by decide)).1
  exact ⟨(congrArg Prod.fst h).trans (by decide),
         (congrArg Prod.snd h).trans (congrArg Except.error (by decide))⟩

/-- Claim C5: for a missing OS account with `create_system_users` disabled,
`add_user` fails with the does-not-exist error, performs no effect at all
(no process is run, no delegation happens). -/
theorem c5_missing_user_rejected (getpwnam : String → Option Unit)
    (run : List String → Int × String) (tmpl : List String) (name : String)
    (hpw : getpwnam name = none) :
    add_user getpwnam run false tmpl name =
      ([], Except.error ("User " ++ name ++ " does not exist.")) ∧
    ∀ c, Effect.ranCmd c ∉ (add_user getpwnam run false tmpl name).1 := by
  have hex : system_user_exists getpwnam name = false := by
    simp [system_user_exists, hpw]
  have h : add_user getpwnam run false tmpl name =
      ([], Except.error ("User " ++ name ++ " does not exist.")) := by
    simp [add_user, hex]
  exact ⟨h, fun c => by rw [h]; simp⟩

/-- Witness for C5 at the concrete user `river` with an empty password
database. -/
theorem c5_witness :
    (add_user pwdbEmpty runOk false cmdTest "river").1 = [] ∧
    (add_user pwdbEmpty runOk false cmdTest "river").2 =
      Except.error "User river does not exist." := by
  have h := (c5_missing_user_rejected pwdbEmpty runOk cmdTest "river" rfl).1
  exact ⟨(congrArg Prod.fst h).trans rfl,
         (congrArg Prod.snd h).trans (congrArg Except.error (by decide))⟩

/-- Claim C6: for an existing OS account, `add_user` never invokes the
creation command and completes by delegating to the base class `add_user`. -/
theorem c6_existing_user_delegates (getpwnam : String → Option Unit)
    (run : List String → Int × String) (create : Bool) (tmpl : List String)
    (name : String) (hpw : getpwnam name = some ()) :
    add_user getpwnam run create tmpl name =
      ([Effect.superAddUser name], Except.ok ()) ∧
    ∀ c, Effect.ranCmd c ∉ (add_user getpwnam run create tmpl name).1 := by
  have hex : system_user_exists getpwnam name = true := by
    simp [system_user_exists, hpw]
  have h : add_user getpwnam run create tmpl name =
      ([Effect.superAddUser name], Except.ok ()) := by
    simp [add_user, hex]
  exact ⟨h, fun c => by rw [h]; simp⟩

/-- Witness for C6: the account `river` exists, so even with creation
enabled only the delegation happens. -/
theorem c6_witness :
    add_user pwdbRiver runOk true cmdTest "river" =
      ([Effect.superAddUser "river"], Except.ok ()) :=
  (c6_existing_user_delegates pwdbRiver runOk true cmdTest "river" (by decide)).1

/-- Claim C7: a group name that does not resolve in the OS group database
never makes `check_group_whitelist` fail — the embedding is a total
function because the `KeyError` is caught — and unresolvable groups are
skipped: the result equals the result over the resolvable groups alone,
so the remaining groups are still checked. -/
theorem c7_unresolvable_groups_skipped
    (getgrnam : String → Option (List String)) (gwl : List String)
    (u : String) :
    check_group_whitelist getgrnam gwl u =
      check_group_whitelist getgrnam
        (gwl.filter (fun g => (getgrnam g).isSome)) u := by
  have h1 := check_group_whitelist_eq_true_iff getgrnam gwl u
  have h2 := check_group_whitelist_eq_true_iff getgrnam
      (gwl.filter (fun g => (getgrnam g).isSome)) u
  have hiff : check_group_whitelist getgrnam gwl u = true ↔
      check_group_whitelist getgrnam
        (gwl.filter (fun g => (getgrnam g).isSome)) u = true := by
    rw [h1, h2]
    constructor
    · rintro ⟨g, hg, mem, hmem, hu⟩
      exact ⟨g, List.mem_filter.mpr ⟨hg, by simp [hmem]⟩, mem, hmem, hu⟩
    · rintro ⟨g, hg, rest⟩
      exact ⟨g, (List.mem_filter.mp hg).1, rest⟩
  cases hb1 : check_group_whitelist getgrnam gwl u <;>
    cases hb2 : check_group_whitelist getgrnam
        (gwl.filter (fun g => (getgrnam g).isSome)) u <;>
    simp_all

/-- Claim C8: the default `add_user_cmd` raises on darwin, is the BSD
template when `pw` is found, and the Linux template otherwise. -/
theorem c8_default_add_user_cmd (platform : String) (hasPw : Bool) :
    (platform = "darwin" →
      add_user_cmd_default platform hasPw =
        Except.error "I don\x27t know how to create users on OS X") ∧
    (platform ≠ "darwin" → hasPw = true →
      add_user_cmd_default platform hasPw = Except.ok ["pw", "useradd", "-m"]) ∧
    (platform ≠ "darwin" → hasPw = false →
      add_user_cmd_default platform hasPw =
        Except.ok ["adduser", "-q", "--gecos", "\"\"", "--disabled-password"]) := by
  refine ⟨fun h => by simp [add_user_cmd_default, h],
          fun h hp => by simp [add_user_cmd_default, h, hp],
          fun h hp => by simp [add_user_cmd_default, h, hp]⟩

/-- Witness for C8 on a Linux platform without the `pw` utility. -/
theorem c8_witness :
    add_user_cmd_default "linux" false =
      Except.ok ["adduser", "-q", "--gecos", "\"\"", "--disabled-password"] :=
  (c8_default_add_user_cmd "linux" false).2.2 (by decide) rfl

/-- Claim C9: whenever `add_user` fails — missing account with creation
disabled, or a creation command exiting nonzero — the base class
delegation never happens: no `superAddUser` effect is performed. -/
theorem c9_no_delegation_on_error (getpwnam : String → Option Unit)
    (run : List String → Int × String) (create : Bool) (tmpl : List String)
    (name e : String)
    (h : (add_user getpwnam run create tmpl name).2 = Except.error e) :
    ∀ u, Effect.superAddUser u ∉ (add_user getpwnam run create tmpl name).1 := by
  intro u
  cases hex : system_user_exists getpwnam name
  · cases create
    · simp [add_user, hex]
    · by_cases h0 : (run (buildCmd tmpl name)).1 = 0
      · have hsys : add_system_user run tmpl name =
            ([Effect.ranCmd (buildCmd tmpl name)], Except.ok ()) := by
          simp [add_system_user, h0]
        simp [add_user, hex, hsys] at h
      · have hsys : add_system_user run tmpl name =
            ([Effect.ranCmd (buildCmd tmpl name)],
             Except.error ("Failed to create system user " ++ name ++ ": " ++
               (run (buildCmd tmpl name)).2)) := by
          simp [add_system_user, h0]
        simp [add_user, hex, hsys]
  · simp [add_user, hex] at h

/-- Witness for C9 on the rejection path of a missing account. -/
theorem c9_witness :
    Effect.superAddUser "river" ∉
      (add_user pwdbEmpty runFail false cmdTest "river").1 :=
  c9_no_delegation_on_error pwdbEmpty runFail false cmdTest "river"
    ("User " ++ "river" ++ " does not exist.") rfl "river"

/-- Claim C10: `check_group_whitelist` only depends on the configured group
set, not on its iteration order: permuting the group list leaves the
result unchanged. -/
theorem c10_order_independence (getgrnam : String → Option (List String))
    (u : String) (l1 l2 : List String) (h : l1.Perm l2) :
    check_group_whitelist getgrnam l1 u = check_group_whitelist getgrnam l2 u := by
  have h1 := check_group_whitelist_eq_true_iff getgrnam l1 u
  have h2 := check_group_whitelist_eq_true_iff getgrnam l2 u
  have hiff : check_group_whitelist getgrnam l1 u = true ↔
      check_group_whitelist getgrnam l2 u = true := by
    rw [h1, h2]
    constructor
    · rintro ⟨g, hg, rest⟩
      exact ⟨g, h.mem_iff.mp hg, rest⟩
    · rintro ⟨g, hg, rest⟩
      exact ⟨g, h.mem_iff.mpr hg, rest⟩
  cases hb1 : check_group_whitelist getgrnam l1 u <;>
    cases hb2 : check_group_whitelist getgrnam l2 u <;>
    simp_all

/-- Witness for C10: swapping the two configured groups does not change
the answer. -/
theorem c10_witness :
    check_group_whitelist gdbTest ["staff", "nosuch"] "bob" =
      check_group_whitelist gdbTest ["nosuch", "staff"] "bob" :=
  c10_order_independence gdbTest "bob" ["staff", "nosuch"] ["nosuch", "staff"]
    (List.Perm.swap "nosuch" "staff" [])
